import Mathlib

/-!
Shallow embedding of `nemo/collections/llm/inference/base.py`.

The file wires a checkpoint-restoration routine and a text-generation entry
point. External collaborators (filesystem, context loader, checkpoint loader,
strategy lifecycle, generation engine) are modelled as explicit parameters in
an `Env` record and as an effect trace of `Event`s emitted in program order.
Mutation of the trainer, strategy and model objects is modelled by explicit
state passing; a Python `assert` failure is an `Except.error` result.
-/

namespace NeMo

/-- Whether `pat` is an initial segment of `s`, on character lists. -/
def listStartsWith : List Char → List Char → Bool
  | [], _ => true
  | _ :: _, [] => false
  | p :: ps, c :: cs => p = c && listStartsWith ps cs

/-- Whether `pat` occurs as a contiguous segment of `s`, on character
lists. -/
def listOccurs (pat : List Char) : List Char → Bool
  | [] => listStartsWith pat []
  | c :: cs => listStartsWith pat (c :: cs) || listOccurs pat cs

/-- Substring test mirroring the Python expression `pat in s` on strings:
`pat` occurs contiguously in `s`. -/
def hasSubstr (s pat : String) : Bool :=
  listOccurs pat.toList s.toList

/-- Modelled from the spec: the adapter metadata filename
`adapter_metadata.json` (constant `ADAPTER_META_FILENAME` from
`nemo.lightning.ckpt_utils`, which is outside this excerpt). -/
def ADAPTER_META_FILENAME : String := "adapter_metadata.json"

/-- Modelled from the spec: `ckpt_to_weights_subdir` from
`nemo.lightning.ckpt_utils` (outside this excerpt) resolves the weights
subdirectory `<path>/weights` of a checkpoint. -/
def ckpt_to_weights_subdir (path : String) : String := path ++ "/weights"

/-- Modelled from the spec: `ckpt_to_context_subdir` from
`nemo.lightning.ckpt_utils` (outside this excerpt) resolves the context
subdirectory `<path>/context` of a checkpoint. -/
def ckpt_to_context_subdir (path : String) : String := path ++ "/context"

/-- Location of the adapter metadata file for a checkpoint: the file
`ADAPTER_META_FILENAME` under the weights subdirectory. -/
def adapterMetaPath (path : String) : String :=
  ckpt_to_weights_subdir path ++ "/" ++ ADAPTER_META_FILENAME

/-- Modelled from the spec: `RestoreConfig` from
`nemo.lightning.pytorch.strategies.utils` (outside this excerpt) describes
what to load and from where: fields `path`, `load_model_state`,
`load_optim_state`. -/
structure RestoreConfig where
  path : String
  load_model_state : Bool
  load_optim_state : Bool
deriving DecidableEq, Repr

/-- Parsed content of the adapter metadata JSON file: an object with the
field `model_ckpt_path`. -/
structure AdapterMeta where
  model_ckpt_path : String
deriving DecidableEq, Repr

/-- External tokenizer interface consumed by `MCoreTokenizerWrappper`:
`ids_to_text`, `text_to_ids`, and the scalar properties it reads. -/
structure Tokenizer where
  ids_to_text : List Nat → Bool → String
  text_to_ids : String → List Nat
  eod : Nat
  vocab_size : Nat
  bos_id : Nat
  pad_id : Nat
  additional_special_tokens_ids : List Nat

/-- The wrapper class from the source: caches `eod` and `vocab_size` of the
wrapped tokenizer at construction and forwards everything else. The
misspelling is kept from the source. -/
structure MCoreTokenizerWrappper where
  tokenizer : Tokenizer
  eod : Nat
  vocab_size : Nat

/-- Constructor of `MCoreTokenizerWrappper`: stores the tokenizer and caches
`eod` and `vocab_size`. -/
def MCoreTokenizerWrappper.init (tokenizer : Tokenizer) : MCoreTokenizerWrappper :=
  { tokenizer := tokenizer, eod := tokenizer.eod, vocab_size := tokenizer.vocab_size }

/-- Method `detokenize`: forwards to `tokenizer.ids_to_text` with the
`remove_special_tokens` flag (the source default is `false`). -/
def MCoreTokenizerWrappper.detokenize (w : MCoreTokenizerWrappper) (tokens : List Nat)
    (remove_special_tokens : Bool) : String :=
  w.tokenizer.ids_to_text tokens remove_special_tokens

/-- Method `tokenize`: forwards to `tokenizer.text_to_ids`. -/
def MCoreTokenizerWrappper.tokenize (w : MCoreTokenizerWrappper) (prompt : String) : List Nat :=
  w.tokenizer.text_to_ids prompt

/-- Property `additional_special_tokens_ids`: forwards to the tokenizer. -/
def MCoreTokenizerWrappper.additional_special_tokens_ids (w : MCoreTokenizerWrappper) : List Nat :=
  w.tokenizer.additional_special_tokens_ids

/-- Property `bos`: forwards to `tokenizer.bos_id`. -/
def MCoreTokenizerWrappper.bos (w : MCoreTokenizerWrappper) : Nat := w.tokenizer.bos_id

/-- Property `pad`: forwards to `tokenizer.pad_id`. -/
def MCoreTokenizerWrappper.pad (w : MCoreTokenizerWrappper) : Nat := w.tokenizer.pad_id

/-- Torch dtypes used at this layer. -/
inductive Dtype where
  | bfloat16
  | float16
  | float32
deriving DecidableEq, Repr

/-- External model object: a state dict (empty means the model has no
parameters yet), a sharded state dict keyed by parameter name, and a
tokenizer. Weight values are abstracted as `Nat`. -/
structure Model where
  state_dict : List (String × Nat)
  sharded_state_dict : List (String × Nat)
  tokenizer : Tokenizer

/-- Result of `model.get_inference_wrapper(params_dtype, threshold)`:
a wrapper around the model recording the dtype and batching threshold. -/
structure InferenceWrapper where
  wrapped : Model
  params_dtype : Dtype
  inference_batch_times_seqlen_threshold : Nat

/-- Method `get_inference_wrapper` of the external model. -/
def Model.get_inference_wrapper (m : Model) (params_dtype : Dtype)
    (inference_batch_times_seqlen_threshold : Nat) : InferenceWrapper :=
  { wrapped := m, params_dtype := params_dtype,
    inference_batch_times_seqlen_threshold := inference_batch_times_seqlen_threshold }

/-- PyTorch Lightning trainer run modes (`TrainerFn`). -/
inductive TrainerFn where
  | fitting
  | validating
  | testing
  | predicting
deriving DecidableEq, Repr

/-- The fields of the distributed strategy that this layer reads or writes.
`isMegatron` records whether the object is an instance of the supported
`MegatronStrategy` class; `launcher_present` records whether
`strategy.launcher` is non-None; `trainer_bound` records the
`strategy.trainer = trainer` rebinding. -/
structure Strategy where
  isMegatron : Bool
  context_parallel_size : Nat
  restore_config : Option RestoreConfig
  setup_optimizers : Bool
  launcher_present : Bool
  trainer_bound : Bool

/-- The fields of the trainer that this layer reads or writes. -/
structure Trainer where
  strategy : Strategy
  ckpt_path : Option String
  state_fn : TrainerFn

/-- Result of `io.load_context(ckpt_to_context_subdir(path), "model.model_transform")`:
either a plain `TrainerContext` object or a `LoRA` transform, modelled as the
function it applies to a model. -/
inductive ModelTransform where
  | trainerContext
  | lora (loraApply : Model → Model)

/-- External collaborators, as functions of the paths and data they receive:
`adapter_meta` is the filesystem view of adapter metadata files (`none` when
the file does not exist at that location), `load_context_model` and
`load_model_transform` model `io.load_context` at the two subpaths used,
`load_checkpoint` models `strategy.checkpoint_io.load_checkpoint`, and
`configure_model` models the in-place lazy construction done by
`model.configure_model()`. -/
structure Env where
  adapter_meta : String → Option AdapterMeta
  load_context_model : String → Model
  load_model_transform : String → ModelTransform
  load_checkpoint : String → List (String × Nat) → List (String × Nat)
  configure_model : Model → Model

/-- One lifecycle effect of `_setup_trainer_and_restore_model`, in program
order. File reads and loads carry their arguments so the trace records what
was read, from where, and how it was merged. -/
inductive Event where
  | checkAdapterMeta (p : String)
  | readAdapterMeta (p : String)
  | installRestoreConfig (rc : RestoreConfig)
  | disableOptimizerSetup
  | clearCkptPath
  | connect
  | launcherLaunch
  | setupEnvironment
  | configureModel
  | setTesting
  | setupMegatronParallel
  | bindTrainer
  | selectiveRestore
  | loadContextTransform (p : String)
  | loadCheckpoint (p : String) (sharded : List (String × Nat))
  | loadModelStateDict (state : List (String × Nat)) (strict : Bool)
deriving DecidableEq, Repr

/-- Discriminator for the two weight-loading effects of the adapter branch
(the checkpoint read and the non-strict state-dict merge). -/
def Event.isWeightLoad : Event → Bool
  | Event.loadCheckpoint _ _ => true
  | Event.loadModelStateDict _ _ => true
  | _ => false

/-- The restore source chosen by the first branch of the function: the base
checkpoint path from the adapter metadata when that file exists, the given
checkpoint path otherwise; model state is loaded, optimizer state is not. -/
def plannedRestoreConfig (env : Env) (path : String) : RestoreConfig :=
  match env.adapter_meta (adapterMetaPath path) with
  | some metadata =>
      { path := metadata.model_ckpt_path, load_model_state := true, load_optim_state := false }
  | none =>
      { path := path, load_model_state := true, load_optim_state := false }

/-- The model after the conditional lazy construction step: `configure_model`
runs exactly when `model.state_dict()` is empty (falsy). -/
def modelAfterConfigure (env : Env) (model : Model) : Model :=
  if model.state_dict.isEmpty then env.configure_model model else model

/-- Embedding of `_setup_trainer_and_restore_model(path, trainer, model)`.
Returns the mutated trainer and model together with the trace of lifecycle
effects, or an error for a failed `assert`. The model returned is the
caller-visible object: the local rebinding `model = lora(model)` in the
adapter branch is not propagated, matching Python reference semantics. -/
def _setup_trainer_and_restore_model (env : Env) (path : String) (trainer : Trainer)
    (model : Model) : Except String (Trainer × Model) × List Event :=
  if trainer.strategy.isMegatron = false then
    (Except.error "Only MegatronStrategy is supported for trainer.strategy.", [])
  else if 1 < trainer.strategy.context_parallel_size then
    (Except.error "Context parallelism is not supported for inference.", [])
  else
    let metaLookup := env.adapter_meta (adapterMetaPath path)
    let restore_config := plannedRestoreConfig env path
    let evs0 : List Event :=
      match metaLookup with
      | some _ => [Event.checkAdapterMeta (adapterMetaPath path),
          Event.readAdapterMeta (adapterMetaPath path)]
      | none => [Event.checkAdapterMeta (adapterMetaPath path)]
    let strat1 := { trainer.strategy with
      restore_config := some restore_config, setup_optimizers := false }
    let trainer1 := { trainer with strategy := strat1, ckpt_path := none }
    let evs1 := evs0 ++ [Event.installRestoreConfig restore_config,
      Event.disableOptimizerSetup, Event.clearCkptPath, Event.connect]
    let evs2 := evs1 ++ (if trainer1.strategy.launcher_present then [Event.launcherLaunch] else [])
    let evs3 := evs2 ++ [Event.setupEnvironment]
    let model1 := modelAfterConfigure env model
    let evs4 := evs3 ++ (if model.state_dict.isEmpty then [Event.configureModel] else [])
    let trainer2 := { trainer1 with
      state_fn := TrainerFn.testing,
      strategy := { trainer1.strategy with trainer_bound := true } }
    let evs5 := evs4 ++ [Event.setTesting, Event.setupMegatronParallel, Event.bindTrainer,
      Event.selectiveRestore, Event.loadContextTransform (ckpt_to_context_subdir path)]
    match env.load_model_transform (ckpt_to_context_subdir path) with
    | ModelTransform.lora loraApply =>
        let model2 := loraApply model1
        let adapter_sharded_state_dict :=
          model2.sharded_state_dict.filter (fun kv => hasSubstr kv.1 ".adapter.")
        let adapter_state :=
          env.load_checkpoint (ckpt_to_weights_subdir path) adapter_sharded_state_dict
        (Except.ok (trainer2, model1),
          evs5 ++ [Event.loadCheckpoint (ckpt_to_weights_subdir path) adapter_sharded_state_dict,
            Event.loadModelStateDict adapter_state false])
    | ModelTransform.trainerContext => (Except.ok (trainer2, model1), evs5)

/-- Embedding of `setup_model_and_tokenizer(path, trainer, params_dtype,
inference_batch_times_seqlen_threshold)`: loads the context model, runs the
restore, and builds the inference wrapper and tokenizer adapter from the
context-loaded model object. -/
def setup_model_and_tokenizer (env : Env) (path : String) (trainer : Trainer)
    (params_dtype : Dtype) (inference_batch_times_seqlen_threshold : Nat) :
    Except String (InferenceWrapper × MCoreTokenizerWrappper) × List Event :=
  let model := env.load_context_model (ckpt_to_context_subdir path)
  match _setup_trainer_and_restore_model env path trainer model with
  | (Except.error e, evs) => (Except.error e, evs)
  | (Except.ok (_, model1), evs) =>
      (Except.ok
        (model1.get_inference_wrapper params_dtype inference_batch_times_seqlen_threshold,
          MCoreTokenizerWrappper.init model1.tokenizer), evs)

/-- The two text-generation controllers, each holding the wrapped model and
tokenizer it was constructed with. -/
inductive Controller where
  | encoderDecoder (inference_wrapped_model : InferenceWrapper)
      (tokenizer : MCoreTokenizerWrappper)
  | simple (inference_wrapped_model : InferenceWrapper) (tokenizer : MCoreTokenizerWrappper)

/-- External `CommonInferenceParams`. `isTruthy` records the Python
truthiness of the object, which is owned by the external class; instances
constructed by this layer are truthy. -/
structure CommonInferenceParams where
  num_tokens_to_generate : Nat
  isTruthy : Bool
deriving DecidableEq, Repr

/-- `MCoreEngine(text_generation_controller, max_batch_size, random_seed)`. -/
structure MCoreEngine where
  text_generation_controller : Controller
  max_batch_size : Nat
  random_seed : Option Int

/-- The arguments of the single `mcore_engine.generate(...)` call. -/
structure GenRequest where
  prompts : List String
  add_BOS : Bool
  encoder_prompts : Option (List String)
  common_inference_params : CommonInferenceParams

/-- Python `a or b` on an optional inference-params object: `None` and falsy
objects select the right operand. -/
def pyOr (a : Option CommonInferenceParams) (b : CommonInferenceParams) :
    CommonInferenceParams :=
  match a with
  | none => b
  | some p => if p.isTruthy then p else b

/-- Embedding of `generate(model, tokenizer, prompts, encoder_prompts,
add_BOS, max_batch_size, random_seed, inference_params)`. The external
engine behavior is the parameter `engineGenerate`; the function builds the
controller, the engine and the request exactly as the source does and
returns the engine result unmodified. -/
def generate {α : Type} (engineGenerate : MCoreEngine → GenRequest → α)
    (model : InferenceWrapper) (tokenizer : MCoreTokenizerWrappper)
    (prompts : List String) (encoder_prompts : Option (List String)) (add_BOS : Bool)
    (max_batch_size : Nat) (random_seed : Option Int)
    (inference_params : Option CommonInferenceParams) : α :=
  let text_generation_controller :=
    match encoder_prompts with
    | some _ => Controller.encoderDecoder model tokenizer
    | none => Controller.simple model tokenizer
  let mcore_engine : MCoreEngine :=
    { text_generation_controller := text_generation_controller,
      max_batch_size := max_batch_size, random_seed := random_seed }
  let common_inference_params :=
    pyOr inference_params { num_tokens_to_generate := 512, isTruthy := true }
  engineGenerate mcore_engine
    { prompts := prompts, add_BOS := add_BOS, encoder_prompts := encoder_prompts,
      common_inference_params := common_inference_params }

/-- Concrete tokenizer for witnesses: character codes as token ids. -/
def tokW : Tokenizer :=
  { ids_to_text := fun ids _ => String.mk (ids.map Char.ofNat),
    text_to_ids := fun s => s.toList.map Char.toNat,
    eod := 0, vocab_size := 256, bos_id := 1, pad_id := 2,
    additional_special_tokens_ids := [] }

/-- Concrete lora transform for witnesses: overlays adapter parameters on
the sharded state dict. -/
def loraApplyW : Model → Model := fun m =>
  { m with sharded_state_dict :=
      [("decoder.layers.0.weight", 3),
       ("decoder.layers.0.adapter.linear_in.weight", 5),
       ("decoder.layers.1.adapter.linear_out.weight", 7)] }

/-- Concrete model for witnesses, with an empty state dict. -/
def modelW : Model :=
  { state_dict := [], sharded_state_dict := [("decoder.layers.0.weight", 3)],
    tokenizer := tokW }

/-- Concrete environment for witnesses: the checkpoint at "ckpt" carries
adapter metadata pointing at "/base", the saved transform is a lora
transform, and checkpoint loading echoes the requested sharded dict. -/
def envW : Env :=
  { adapter_meta := fun p =>
      if p = adapterMetaPath "ckpt" then some { model_ckpt_path := "/base" } else none,
    load_context_model := fun _ => modelW,
    load_model_transform := fun _ => ModelTransform.lora loraApplyW,
    load_checkpoint := fun _ sd => sd,
    configure_model := fun m => m }

/-- Concrete environment with no adapter metadata anywhere and a plain
context transform. -/
def envN : Env :=
  { adapter_meta := fun _ => none,
    load_context_model := fun _ => modelW,
    load_model_transform := fun _ => ModelTransform.trainerContext,
    load_checkpoint := fun _ sd => sd,
    configure_model := fun m => m }

/-- Concrete supported strategy with context-parallel degree 1. -/
def stratW : Strategy :=
  { isMegatron := true, context_parallel_size := 1, restore_config := none,
    setup_optimizers := true, launcher_present := false, trainer_bound := false }

/-- Concrete trainer for witnesses. -/
def trainerW : Trainer :=
  { strategy := stratW, ckpt_path := some "previous", state_fn := TrainerFn.fitting }

/-- Trainer with context-parallel degree 2, violating the precondition. -/
def trainerCp2 : Trainer :=
  { strategy := { stratW with context_parallel_size := 2 }, ckpt_path := none,
    state_fn := TrainerFn.fitting }

/-- Concrete inference wrapper for witnesses. -/
def wrapW : InferenceWrapper := modelW.get_inference_wrapper Dtype.bfloat16 1000

/-- Concrete tokenizer adapter for witnesses. -/
def tokAdW : MCoreTokenizerWrappper := MCoreTokenizerWrappper.init tokW

/-- The character-code tokenizer satisfies the left-inverse law. -/
theorem tokW_left_inverse : ∀ t, tokW.ids_to_text (tokW.text_to_ids t) false = t := by
  intro t
  cases t with
  | mk data =>
    simp [tokW, String.toList, List.map_map, Function.comp_def, Char.ofNat_toNat]

/-- C5: `generate` constructs the encoder-decoder controller exactly when
`encoder_prompts` is non-null and the simple controller exactly when it is
null, and nothing else about the constructed engine or request depends on
that branch: batch size, seed and the whole request are the same fixed
functions of the inputs in both cases. -/
theorem controller_selection (model : InferenceWrapper) (tok : MCoreTokenizerWrappper)
    (prompts : List String) (encoder_prompts : Option (List String)) (add_BOS : Bool)
    (max_batch_size : Nat) (random_seed : Option Int)
    (inference_params : Option CommonInferenceParams) :
    (generate (fun e _ => e) model tok prompts encoder_prompts add_BOS max_batch_size
        random_seed inference_params).text_generation_controller =
      (match encoder_prompts with
       | some _ => Controller.encoderDecoder model tok
       | none => Controller.simple model tok) ∧
    (generate (fun e _ => e) model tok prompts encoder_prompts add_BOS max_batch_size
        random_seed inference_params).max_batch_size = max_batch_size ∧
    (generate (fun e _ => e) model tok prompts encoder_prompts add_BOS max_batch_size
        random_seed inference_params).random_seed = random_seed ∧
    (generate (fun _ r => r) model tok prompts encoder_prompts add_BOS max_batch_size
        random_seed inference_params) =
      { prompts := prompts, add_BOS := add_BOS, encoder_prompts := encoder_prompts,
        common_inference_params :=
          pyOr inference_params { num_tokens_to_generate := 512, isTruthy := true } } := by
  cases encoder_prompts <;> simp [generate]

/-- C6: when no inference params are supplied, the request passed to the
engine asks for exactly 512 tokens to generate. -/
theorem default_inference_params_512 (model : InferenceWrapper)
    (tok : MCoreTokenizerWrappper) (prompts : List String)
    (encoder_prompts : Option (List String)) (add_BOS : Bool) (max_batch_size : Nat)
    (random_seed : Option Int) :
    (generate (fun _ r => r) model tok prompts encoder_prompts add_BOS max_batch_size
        random_seed none).common_inference_params.num_tokens_to_generate = 512 := by
  cases encoder_prompts <;> rfl

/-- C7: `generate` returns the engine result unmodified (it is exactly the
engine applied to the constructed engine object and request), and for any
engine whose generate maps the request prompts in order, the result at
index `i` is the image of prompt `i`. -/
theorem generate_result_order {α : Type} (engineGenerate : MCoreEngine → GenRequest → List α)
    (f : String → α) (hord : ∀ e r, engineGenerate e r = r.prompts.map f)
    (model : InferenceWrapper) (tok : MCoreTokenizerWrappper) (prompts : List String)
    (encoder_prompts : Option (List String)) (add_BOS : Bool) (max_batch_size : Nat)
    (random_seed : Option Int) (inference_params : Option CommonInferenceParams) :
    generate engineGenerate model tok prompts encoder_prompts add_BOS max_batch_size
        random_seed inference_params =
      engineGenerate
        (generate (fun e _ => e) model tok prompts encoder_prompts add_BOS max_batch_size
          random_seed inference_params)
        (generate (fun _ r => r) model tok prompts encoder_prompts add_BOS max_batch_size
          random_seed inference_params) ∧
    ∀ i : Nat, (generate engineGenerate model tok prompts encoder_prompts add_BOS
        max_batch_size random_seed inference_params)[i]? = (prompts[i]?).map f := by
  refine ⟨rfl, fun i => ?_⟩
  cases encoder_prompts <;> simp [generate, hord]

/-- Witness for C7 at an order-preserving echo engine and prompts a, b, c. -/
theorem generate_result_order_witness :
    (generate (fun _ r => r.prompts) wrapW tokAdW ["a", "b", "c"] none false 4 none none =
      (fun (_ : MCoreEngine) (r : GenRequest) => r.prompts)
        (generate (fun e _ => e) wrapW tokAdW ["a", "b", "c"] none false 4 none none)
        (generate (fun _ r => r) wrapW tokAdW ["a", "b", "c"] none false 4 none none)) ∧
    ∀ i : Nat, (generate (fun _ r => r.prompts) wrapW tokAdW ["a", "b", "c"] none false 4
        none none)[i]? = ((["a", "b", "c"] : List String)[i]?).map id :=
  generate_result_order (fun _ r => r.prompts) id
    (fun _ r => (List.map_id r.prompts).symm) wrapW tokAdW ["a", "b", "c"] none false 4
    none none

/-- C8: when the wrapped tokenizer ids_to_text is a left inverse of
text_to_ids (at the default remove_special_tokens flag false), the adapter
satisfies detokenize (tokenize x) = x. -/
theorem detokenize_tokenize_roundtrip (tok : Tokenizer)
    (h : ∀ t, tok.ids_to_text (tok.text_to_ids t) false = t) (x : String) :
    (MCoreTokenizerWrappper.init tok).detokenize
      ((MCoreTokenizerWrappper.init tok).tokenize x) false = x :=
  h x

/-- Witness for C8 at the character-code tokenizer and the text abc. -/
theorem detokenize_tokenize_roundtrip_witness :
    (MCoreTokenizerWrappper.init tokW).detokenize
      ((MCoreTokenizerWrappper.init tokW).tokenize "abc") false = "abc" :=
  detokenize_tokenize_roundtrip tokW tokW_left_inverse "abc"

/-- C10: a supplied falsy inference-params object is replaced by the default
512-token params: the source tests Python truthiness, not only for None. -/
theorem falsy_inference_params_replaced (model : InferenceWrapper)
    (tok : MCoreTokenizerWrappper) (prompts : List String)
    (encoder_prompts : Option (List String)) (add_BOS : Bool) (max_batch_size : Nat)
    (random_seed : Option Int) (p : CommonInferenceParams) (h : p.isTruthy = false) :
    (generate (fun _ r => r) model tok prompts encoder_prompts add_BOS max_batch_size
        random_seed (some p)).common_inference_params =
      { num_tokens_to_generate := 512, isTruthy := true } := by
  cases encoder_prompts <;> simp [generate, pyOr, h]

/-- Witness for C10 at a concrete falsy params object. -/
theorem falsy_inference_params_replaced_witness :
    (generate (fun _ r => r) wrapW tokAdW ["a"] none false 4 none
        (some { num_tokens_to_generate := 7, isTruthy := false })).common_inference_params =
      { num_tokens_to_generate := 512, isTruthy := true } :=
  falsy_inference_params_replaced wrapW tokAdW ["a"] none false 4 none
    { num_tokens_to_generate := 7, isTruthy := false } rfl

/-- The trainer state produced by a successful restore: restore config
installed, optimizer setup disabled, checkpoint path cleared, run mode
testing, trainer rebound onto the strategy. -/
def finalTrainer (env : Env) (path : String) (trainer : Trainer) : Trainer :=
  { trainer with
    ckpt_path := none,
    state_fn := TrainerFn.testing,
    strategy := { trainer.strategy with
      restore_config := some (plannedRestoreConfig env path),
      setup_optimizers := false,
      trainer_bound := true } }

/-- Helper: on valid preconditions the restore succeeds and returns the
final trainer state and the possibly lazily constructed model. -/
theorem setup_eval_ok (env : Env) (path : String) (trainer : Trainer) (model : Model)
    (hmeg : trainer.strategy.isMegatron = true)
    (hcp : trainer.strategy.context_parallel_size ≤ 1) :
    (_setup_trainer_and_restore_model env path trainer model).1 =
      Except.ok (finalTrainer env path trainer, modelAfterConfigure env model) := by
  have hcp' : ¬ 1 < trainer.strategy.context_parallel_size := Nat.not_lt.mpr hcp
  cases htr : env.load_model_transform (ckpt_to_context_subdir path) <;>
    simp [_setup_trainer_and_restore_model, finalTrainer, hmeg, hcp', htr]

/-- C2: without adapter metadata the restore succeeds and the RestoreConfig
installed on the strategy of the returned trainer has the given checkpoint
path, loads model state, and does not load optimizer state. -/
theorem restore_config_without_adapter_meta (env : Env) (path : String) (trainer : Trainer)
    (model : Model)
    (hmeg : trainer.strategy.isMegatron = true)
    (hcp : trainer.strategy.context_parallel_size ≤ 1)
    (hmeta : env.adapter_meta (adapterMetaPath path) = none) :
    ∃ trainer1 model1,
      (_setup_trainer_and_restore_model env path trainer model).1 =
        Except.ok (trainer1, model1) ∧
      trainer1.strategy.restore_config =
        some { path := path, load_model_state := true, load_optim_state := false } :=
  ⟨finalTrainer env path trainer, modelAfterConfigure env model,
    setup_eval_ok env path trainer model hmeg hcp,
    by simp [finalTrainer, plannedRestoreConfig, hmeta]⟩

/-- Witness for C2 at a concrete checkpoint with no adapter metadata. -/
theorem restore_config_without_adapter_meta_witness :
    ∃ trainer1 model1,
      (_setup_trainer_and_restore_model envN "ckpt2" trainerW modelW).1 =
        Except.ok (trainer1, model1) ∧
      trainer1.strategy.restore_config =
        some { path := "ckpt2", load_model_state := true, load_optim_state := false } :=
  restore_config_without_adapter_meta envN "ckpt2" trainerW modelW rfl (by decide) rfl

/-- C1: with adapter metadata the installed RestoreConfig points at the
metadata base checkpoint path (model state loaded, optimizer state not),
and when the saved transform is a lora transform the only weight-load
effects are one checkpoint read from the weights subdirectory restricted to
exactly the sharded-state entries whose key contains the substring
".adapter." of the lora-transformed model, followed by one non-strict merge
of that state. -/
theorem restore_config_with_adapter_meta (env : Env) (path : String) (trainer : Trainer)
    (model : Model) (metadata : AdapterMeta) (loraApply : Model → Model)
    (hmeg : trainer.strategy.isMegatron = true)
    (hcp : trainer.strategy.context_parallel_size ≤ 1)
    (hmeta : env.adapter_meta (adapterMetaPath path) = some metadata)
    (hlora : env.load_model_transform (ckpt_to_context_subdir path) =
      ModelTransform.lora loraApply) :
    ∃ trainer1 model1,
      (_setup_trainer_and_restore_model env path trainer model).1 =
        Except.ok (trainer1, model1) ∧
      trainer1.strategy.restore_config =
        some { path := metadata.model_ckpt_path, load_model_state := true,
               load_optim_state := false } ∧
      (_setup_trainer_and_restore_model env path trainer model).2.filter
          Event.isWeightLoad =
        [Event.loadCheckpoint (ckpt_to_weights_subdir path)
            ((loraApply model1).sharded_state_dict.filter
              (fun kv => hasSubstr kv.1 ".adapter.")),
         Event.loadModelStateDict
            (env.load_checkpoint (ckpt_to_weights_subdir path)
              ((loraApply model1).sharded_state_dict.filter
                (fun kv => hasSubstr kv.1 ".adapter."))) false] := by
  refine ⟨finalTrainer env path trainer, modelAfterConfigure env model,
    setup_eval_ok env path trainer model hmeg hcp, ?_, ?_⟩
  · simp [finalTrainer, plannedRestoreConfig, hmeta]
  · have hcp' : ¬ 1 < trainer.strategy.context_parallel_size := Nat.not_lt.mpr hcp
    cases he : model.state_dict.isEmpty <;>
      cases hl : trainer.strategy.launcher_present <;>
        simp [_setup_trainer_and_restore_model, modelAfterConfigure, hmeg, hcp', hmeta,
          hlora, he, hl, Event.isWeightLoad]

/-- Witness for C1 at a concrete checkpoint with adapter metadata pointing
at "/base" and a concrete lora transform. -/
theorem restore_config_with_adapter_meta_witness :
    ∃ trainer1 model1,
      (_setup_trainer_and_restore_model envW "ckpt" trainerW modelW).1 =
        Except.ok (trainer1, model1) ∧
      trainer1.strategy.restore_config =
        some { path := "/base", load_model_state := true, load_optim_state := false } ∧
      (_setup_trainer_and_restore_model envW "ckpt" trainerW modelW).2.filter
          Event.isWeightLoad =
        [Event.loadCheckpoint (ckpt_to_weights_subdir "ckpt")
            ((loraApplyW model1).sharded_state_dict.filter
              (fun kv => hasSubstr kv.1 ".adapter.")),
         Event.loadModelStateDict
            (envW.load_checkpoint (ckpt_to_weights_subdir "ckpt")
              ((loraApplyW model1).sharded_state_dict.filter
                (fun kv => hasSubstr kv.1 ".adapter."))) false] :=
  restore_config_with_adapter_meta envW "ckpt" trainerW modelW
    { model_ckpt_path := "/base" } loraApplyW rfl (by decide) (by decide) rfl

/-- C3: when the strategy is not the supported Megatron strategy or its
context-parallel degree exceeds 1, the function returns an assertion error
with an empty effect trace: the adapter metadata file is never checked, no
restore I/O happens, and no mutation of the trainer or strategy occurs (in
this pure embedding every mutation is a returned value accompanied by trace
events, and the error result carries neither). -/
theorem asserts_precede_restore (env : Env) (path : String) (trainer : Trainer)
    (model : Model)
    (h : trainer.strategy.isMegatron = false ∨
      1 < trainer.strategy.context_parallel_size) :
    (∃ msg, (_setup_trainer_and_restore_model env path trainer model).1 =
      Except.error msg) ∧
    (_setup_trainer_and_restore_model env path trainer model).2 = [] := by
  by_cases hm : trainer.strategy.isMegatron = false
  · exact ⟨⟨"Only MegatronStrategy is supported for trainer.strategy.",
      by simp [_setup_trainer_and_restore_model, hm]⟩,
      by simp [_setup_trainer_and_restore_model, hm]⟩
  · have hcp : 1 < trainer.strategy.context_parallel_size := by
      rcases h with h | h
      · exact absurd h hm
      · exact h
    exact ⟨⟨"Context parallelism is not supported for inference.",
      by simp [_setup_trainer_and_restore_model, hm, hcp]⟩,
      by simp [_setup_trainer_and_restore_model, hm, hcp]⟩

/-- Witness for C3 at a trainer with context-parallel degree 2. -/
theorem asserts_precede_restore_witness :
    (∃ msg, (_setup_trainer_and_restore_model envW "ckpt" trainerCp2 modelW).1 =
      Except.error msg) ∧
    (_setup_trainer_and_restore_model envW "ckpt" trainerCp2 modelW).2 = [] :=
  asserts_precede_restore envW "ckpt" trainerCp2 modelW (Or.inr (by decide))

/-- C4: on valid input the effect trace is exactly the fixed lifecycle
sequence: metadata check (and read when present), install restore config,
disable optimizer setup, clear checkpoint path, connect, launcher no-op
exactly when a launcher is present, set up environment, lazy construction
exactly when the state dict is empty, set testing mode, set up megatron
parallel, rebind trainer, selective restore, then the context-transform
load and, in the adapter case, the filtered second load. -/
theorem lifecycle_sequence (env : Env) (path : String) (trainer : Trainer) (model : Model)
    (hmeg : trainer.strategy.isMegatron = true)
    (hcp : trainer.strategy.context_parallel_size ≤ 1) :
    (_setup_trainer_and_restore_model env path trainer model).2 =
      (match env.adapter_meta (adapterMetaPath path) with
       | some _ => [Event.checkAdapterMeta (adapterMetaPath path),
           Event.readAdapterMeta (adapterMetaPath path)]
       | none => [Event.checkAdapterMeta (adapterMetaPath path)]) ++
      [Event.installRestoreConfig (plannedRestoreConfig env path),
       Event.disableOptimizerSetup, Event.clearCkptPath, Event.connect] ++
      (if trainer.strategy.launcher_present then [Event.launcherLaunch] else []) ++
      [Event.setupEnvironment] ++
      (if model.state_dict.isEmpty then [Event.configureModel] else []) ++
      [Event.setTesting, Event.setupMegatronParallel, Event.bindTrainer,
       Event.selectiveRestore, Event.loadContextTransform (ckpt_to_context_subdir path)] ++
      (match env.load_model_transform (ckpt_to_context_subdir path) with
       | ModelTransform.lora loraApply =>
           [Event.loadCheckpoint (ckpt_to_weights_subdir path)
              ((loraApply (modelAfterConfigure env model)).sharded_state_dict.filter
                (fun kv => hasSubstr kv.1 ".adapter.")),
            Event.loadModelStateDict
              (env.load_checkpoint (ckpt_to_weights_subdir path)
                ((loraApply (modelAfterConfigure env model)).sharded_state_dict.filter
                  (fun kv => hasSubstr kv.1 ".adapter."))) false]
       | ModelTransform.trainerContext => []) := by
  have hcp' : ¬ 1 < trainer.strategy.context_parallel_size := Nat.not_lt.mpr hcp
  cases hm : env.adapter_meta (adapterMetaPath path) <;>
    cases hl : trainer.strategy.launcher_present <;>
      cases he : model.state_dict.isEmpty <;>
        cases htr : env.load_model_transform (ckpt_to_context_subdir path) <;>
          simp [_setup_trainer_and_restore_model, plannedRestoreConfig, modelAfterConfigure,
            hmeg, hcp', hm, hl, he, htr]

/-- Witness for C4 at a concrete adapter checkpoint: the trace evaluates to
the fully explicit lifecycle sequence. -/
theorem lifecycle_sequence_witness :
    (_setup_trainer_and_restore_model envW "ckpt" trainerW modelW).2 =
      [Event.checkAdapterMeta "ckpt/weights/adapter_metadata.json",
       Event.readAdapterMeta "ckpt/weights/adapter_metadata.json",
       Event.installRestoreConfig
         { path := "/base", load_model_state := true, load_optim_state := false },
       Event.disableOptimizerSetup,
       Event.clearCkptPath,
       Event.connect,
       Event.setupEnvironment,
       Event.configureModel,
       Event.setTesting,
       Event.setupMegatronParallel,
       Event.bindTrainer,
       Event.selectiveRestore,
       Event.loadContextTransform "ckpt/context",
       Event.loadCheckpoint "ckpt/weights"
         [("decoder.layers.0.adapter.linear_in.weight", 5),
          ("decoder.layers.1.adapter.linear_out.weight", 7)],
       Event.loadModelStateDict
         [("decoder.layers.0.adapter.linear_in.weight", 5),
          ("decoder.layers.1.adapter.linear_out.weight", 7)] false] := by
  have h := lifecycle_sequence envW "ckpt" trainerW modelW rfl (by decide)
  rw [h]
  rfl

/-- C9: applying a lora transform rebinds the model only locally: the value
component of setup_model_and_tokenizer (the inference wrapper and the
tokenizer adapter, both built from the context-loaded model object) is
unchanged when the saved transform is a lora transform instead of a plain
context object. -/
theorem adapter_rebound_locally (env : Env) (loraApply : Model → Model) (path : String)
    (trainer : Trainer) (params_dtype : Dtype)
    (inference_batch_times_seqlen_threshold : Nat) :
    (setup_model_and_tokenizer
        { env with load_model_transform := fun _ => ModelTransform.lora loraApply }
        path trainer params_dtype inference_batch_times_seqlen_threshold).1 =
      (setup_model_and_tokenizer
        { env with load_model_transform := fun _ => ModelTransform.trainerContext }
        path trainer params_dtype inference_batch_times_seqlen_threshold).1 := by
  by_cases hm : trainer.strategy.isMegatron = false
  · simp [setup_model_and_tokenizer, _setup_trainer_and_restore_model, hm]
  · by_cases hcp : 1 < trainer.strategy.context_parallel_size
    · simp [setup_model_and_tokenizer, _setup_trainer_and_restore_model, hm, hcp]
    · cases hmeta : env.adapter_meta (adapterMetaPath path) <;>
        simp [setup_model_and_tokenizer, _setup_trainer_and_restore_model,
          plannedRestoreConfig, modelAfterConfigure, hm, hcp, hmeta]

end NeMo
